import Mathlib

/-!
Verification of the Notification and Confirmation Manager of the
TacheUnie front-end (the `AlertsProvider` component, present in two
variants of the application file; the two variants differ only in the
default toast timeout: 4000 ms in one, 3000 ms in the other).

The embedding models:
  * the Toast Registry: `showToast` prepends an item and, unless the
    caller passed `timeout: null`, schedules a single-shot removal
    timer; `hideToast` filters the toast list by id; a timer that fires
    also filters the toast list by id.
  * the Confirmation Broker: `confirm` builds a payload holding a
    resolver for a fresh promise and stores it in the single
    `confirmModal` slot (unconditionally overwriting any pending one);
    the modal buttons invoke the resolver of the currently displayed
    payload, which settles the promise (a JavaScript promise settles at
    most once) and clears the slot.

Ids produced by `Math.random().toString(36).slice(2, 9)` are modelled
as opaque strings supplied per call, so statements can quantify over
every outcome of id generation.
-/

/-- The four toast kinds of the source (`type?: ToastType`). -/
inductive ToastType
  | success
  | error
  | info
  | warning
deriving DecidableEq, Repr

/-- Input of `showToast` (`Omit<ToastItem, "id">`).  The `timeout`
field distinguishes the three TypeScript cases: `none` is an omitted
field (undefined), `some none` is an explicit `null`, `some (some n)`
is a number. -/
structure ToastPayload where
  type : Option ToastType
  title : Option String
  message : String
  timeout : Option (Option Nat)
deriving DecidableEq, Repr

/-- A toast in the registry (`ToastItem` of the source). -/
structure ToastItem where
  id : String
  type : Option ToastType
  title : Option String
  message : String
  timeout : Option (Option Nat)
deriving DecidableEq, Repr

/-- A scheduled `setTimeout` call: it will remove every toast whose id
is `toastId`, and may fire once the clock reaches `fireAt`. -/
structure TTLTimer where
  toastId : String
  fireAt : Nat
deriving DecidableEq, Repr

/-- State of the Toast Registry: the `toasts` React state (head =
most recently posted), the set of scheduled not-yet-fired timers, and
the current clock in milliseconds. -/
@[ext]
structure RegistryState where
  toasts : List ToastItem
  timers : List TTLTimer
  now : Nat
deriving DecidableEq, Repr

/-- The empty registry at time zero. -/
def initRegistry : RegistryState := { toasts := [], timers := [], now := 0 }

/-- The default toast timeout of the first variant of the provider
(`payload.timeout ?? 4000`). -/
def defaultTimeout_part000 : Nat := 4000

/-- The default toast timeout of the second variant of the provider
(`payload.timeout ?? 3000`). -/
def defaultTimeout_part001 : Nat := 3000

/-- `const item: ToastItem = { id, ...payload }`. -/
def ToastPayload.toItem (p : ToastPayload) (id : String) : ToastItem :=
  { id := id, type := p.type, title := p.title, message := p.message,
    timeout := p.timeout }

/-- `showToast` of `AlertsProvider`, parametrised by the default
timeout `d` of the variant and by the generated id.  It prepends the
new item (`setToasts((s) => [item, ...s])`) and, when
`payload.timeout !== null`, schedules one removal timer at delay
`payload.timeout ?? d`.  It returns the id synchronously. -/
def showToast (d : Nat) (id : String) (payload : ToastPayload)
    (s : RegistryState) : RegistryState × String :=
  let item := payload.toItem id
  let s1 := { s with toasts := item :: s.toasts }
  let s2 :=
    if payload.timeout = some none then s1
    else
      let t := match payload.timeout with
        | some (some n) => n
        | _ => d
      { s1 with timers := ⟨id, s.now + t⟩ :: s1.timers }
  (s2, id)

/-- `hideToast`: `setToasts((s) => s.filter((t) => t.id !== id))`.  It
does not touch the timers. -/
def hideToast (id : String) (s : RegistryState) : RegistryState :=
  { s with toasts := s.toasts.filter (fun t => t.id != id) }

/-- The body of a timer that fires: the `setTimeout` callback runs
`setToasts((s) => s.filter((x) => x.id !== id))`, and the one-shot
timer leaves the scheduled set. -/
def fireTimer (tm : TTLTimer) (s : RegistryState) : RegistryState :=
  { s with toasts := s.toasts.filter (fun t => t.id != tm.toastId),
           timers := s.timers.erase tm }

/-- Advancing the clock by `k` milliseconds. -/
def advanceClock (k : Nat) (s : RegistryState) : RegistryState :=
  { s with now := s.now + k }

/-- The events the registry reacts to. -/
inductive RegAction
  | post (id : String) (payload : ToastPayload)
  | dismiss (id : String)
  | fire (tm : TTLTimer)
  | advance (k : Nat)
deriving DecidableEq, Repr

/-- One step of the registry under the event-loop semantics: posts and
dismissals run synchronously; a scheduled timer may fire only once the
clock has reached its deadline, and is consumed by firing. -/
inductive RegStep (d : Nat) : RegistryState → RegAction → RegistryState → Prop
  | post (s : RegistryState) (id : String) (p : ToastPayload) :
      RegStep d s (RegAction.post id p) (showToast d id p s).1
  | dismiss (s : RegistryState) (id : String) :
      RegStep d s (RegAction.dismiss id) (hideToast id s)
  | fire (s : RegistryState) (tm : TTLTimer) (hmem : tm ∈ s.timers)
      (hdue : tm.fireAt ≤ s.now) :
      RegStep d s (RegAction.fire tm) (fireTimer tm s)
  | advance (s : RegistryState) (k : Nat) :
      RegStep d s (RegAction.advance k) (advanceClock k s)

/-- Registry states reachable from the empty registry, for any outcome
of id generation. -/
inductive RegReachable (d : Nat) : RegistryState → Prop
  | init : RegReachable d initRegistry
  | step {s s' : RegistryState} {a : RegAction} :
      RegReachable d s → RegStep d s a s' → RegReachable d s'

/-- An id is fresh for a state when no current toast bears it and no
scheduled timer targets it. -/
def FreshId (id : String) (s : RegistryState) : Prop :=
  id ∉ s.toasts.map ToastItem.id ∧ id ∉ s.timers.map TTLTimer.toastId

instance (id : String) (s : RegistryState) : Decidable (FreshId id s) := by
  unfold FreshId; infer_instance

/-- A step whose posts only use fresh ids (the generator did not
collide). -/
def RegStepF (d : Nat) (s : RegistryState) (a : RegAction)
    (s' : RegistryState) : Prop :=
  RegStep d s a s' ∧ ∀ id p, a = RegAction.post id p → FreshId id s

/-- Registry states reachable along traces in which every generated id
was fresh at the moment of its post. -/
inductive RegReachableF (d : Nat) : RegistryState → Prop
  | init : RegReachableF d initRegistry
  | step {s s' : RegistryState} {a : RegAction} :
      RegReachableF d s → RegStepF d s a s' → RegReachableF d s'

/-- Posting a list of payloads in order, threading the registry state
(the ids are again supplied externally). -/
def postAll (d : Nat) (ps : List (String × ToastPayload))
    (s : RegistryState) : RegistryState :=
  ps.foldl (fun s ip => (showToast d ip.1 ip.2 s).1) s

/-! ## Basic facts about `showToast` -/

/-- `showToast` always prepends exactly the item built from its payload. -/
theorem showToast_fst_toasts (d : Nat) (id : String) (p : ToastPayload)
    (s : RegistryState) :
    (showToast d id p s).1.toasts = p.toItem id :: s.toasts := by
  unfold showToast
  by_cases h : p.timeout = some none <;> simp [h]

/-- `showToast` never changes the clock. -/
theorem showToast_fst_now (d : Nat) (id : String) (p : ToastPayload)
    (s : RegistryState) :
    (showToast d id p s).1.now = s.now := by
  unfold showToast
  by_cases h : p.timeout = some none <;> simp [h]

/-- The timers after a `showToast`: unchanged for `timeout: null`, one
new timer for the posted id otherwise. -/
theorem showToast_fst_timers (d : Nat) (id : String) (p : ToastPayload)
    (s : RegistryState) :
    (showToast d id p s).1.timers =
      if p.timeout = some none then s.timers
      else ⟨id, s.now + (match p.timeout with
        | some (some n) => n
        | _ => d)⟩ :: s.timers := by
  unfold showToast
  by_cases h : p.timeout = some none <;> simp [h]

/-- C3.  For every sequence of posts with no intervening dismissal,
the registry ends with the items of the sequence in reverse call order
in front of the previous content (most recently posted first), and
each call returns its generated id synchronously. -/
theorem post_sequence_reverse_order (d : Nat)
    (ps : List (String × ToastPayload)) (s : RegistryState) :
    (postAll d ps s).toasts
      = (ps.map (fun ip => ip.2.toItem ip.1)).reverse ++ s.toasts ∧
    ∀ id p s', (showToast d id p s').2 = id := by
  refine ⟨?_, fun id p s' => rfl⟩
  induction ps generalizing s with
  | nil => simp [postAll]
  | cons ip ps ih =>
    have hstep : postAll d (ip :: ps) s
        = postAll d ps (showToast d ip.1 ip.2 s).1 := rfl
    rw [hstep, ih, showToast_fst_toasts]
    simp

/-- C6.  `hideToast` is idempotent, and on an id absent from the
registry it is a no-op (and, being a total function, it raises no
error). -/
theorem hideToast_idempotent_noop_absent (id : String) (s : RegistryState) :
    hideToast id (hideToast id s) = hideToast id s ∧
    (id ∉ s.toasts.map ToastItem.id → hideToast id s = s) := by
  constructor
  · simp [hideToast, List.filter_filter]
  · intro h
    have hkeep : ∀ t ∈ s.toasts, (t.id != id) = true := by
      intro t ht
      simp only [bne_iff_ne, ne_eq]
      intro hEq
      exact h (hEq ▸ List.mem_map_of_mem ToastItem.id ht)
    simp [hideToast, List.filter_eq_self.2 hkeep]

/-- Witness for C6 at a concrete registry. -/
theorem hideToast_idempotent_noop_absent_witness :
    hideToast "a" (hideToast "a" initRegistry) = hideToast "a" initRegistry ∧
    hideToast "a" initRegistry = initRegistry :=
  ⟨(hideToast_idempotent_noop_absent "a" initRegistry).1,
   (hideToast_idempotent_noop_absent "a" initRegistry).2 (by decide)⟩

/-- C9.  `showToast` is a total function (so it never throws and
performs no I/O in the embedding); its only effects are prepending the
new item and possibly scheduling one single-shot timer for it: the
clock is untouched and the timer list either stays or grows by exactly
one timer bearing the new id. -/
theorem showToast_total_effects (d : Nat) (id : String) (p : ToastPayload)
    (s : RegistryState) :
    (showToast d id p s).2 = id ∧
    (showToast d id p s).1.toasts = p.toItem id :: s.toasts ∧
    (showToast d id p s).1.now = s.now ∧
    ((showToast d id p s).1.timers = s.timers ∨
      ∃ t, (showToast d id p s).1.timers = ⟨id, s.now + t⟩ :: s.timers) := by
  refine ⟨rfl, showToast_fst_toasts d id p s, showToast_fst_now d id p s, ?_⟩
  rw [showToast_fst_timers]
  rcases hp : p.timeout with _ | o
  · exact Or.inr ⟨d, by simp⟩
  · cases o with
    | none => exact Or.inl (by simp)
    | some n => exact Or.inr ⟨n, by simp⟩

/-- C10.  Removal by id (by `hideToast` and by a TTL timer callback
alike) is frame-preserving: the surviving toasts are exactly the ones
whose id differs, each kept unchanged, and their relative order is
preserved (the result is a sublist of the original). -/
theorem removal_frame (id : String) (tm : TTLTimer) (s : RegistryState) :
    ((hideToast id s).toasts.Sublist s.toasts ∧
      ∀ x, x ∈ (hideToast id s).toasts ↔ x ∈ s.toasts ∧ x.id ≠ id) ∧
    ((fireTimer tm s).toasts.Sublist s.toasts ∧
      ∀ x, x ∈ (fireTimer tm s).toasts ↔ x ∈ s.toasts ∧ x.id ≠ tm.toastId) := by
  refine ⟨⟨List.filter_sublist _, fun x => ?_⟩,
          ⟨List.filter_sublist _, fun x => ?_⟩⟩ <;>
    simp [hideToast, fireTimer, List.mem_filter]

/-- Witness for C10 at a concrete registry. -/
theorem removal_frame_witness :
    ((hideToast "a" initRegistry).toasts.Sublist initRegistry.toasts ∧
      ∀ x, x ∈ (hideToast "a" initRegistry).toasts ↔
        x ∈ initRegistry.toasts ∧ x.id ≠ "a") ∧
    ((fireTimer ⟨"b", 0⟩ initRegistry).toasts.Sublist initRegistry.toasts ∧
      ∀ x, x ∈ (fireTimer ⟨"b", 0⟩ initRegistry).toasts ↔
        x ∈ initRegistry.toasts ∧ x.id ≠ "b") :=
  removal_frame "a" ⟨"b", 0⟩ initRegistry

/-! ## Trace invariants of the registry -/

@[simp]
theorem ToastPayload.toItem_id (p : ToastPayload) (id : String) :
    (p.toItem id).id = id := rfl

@[simp]
theorem ToastPayload.toItem_timeout (p : ToastPayload) (id : String) :
    (p.toItem id).timeout = p.timeout := rfl

/-- Along fresh-id traces, no scheduled timer targets the id of a
toast that was posted with `timeout: null`. -/
theorem regF_null_ttl_no_timer (d : Nat) (s : RegistryState)
    (h : RegReachableF d s) :
    ∀ x ∈ s.toasts, x.timeout = some none →
      ∀ tm ∈ s.timers, tm.toastId ≠ x.id := by
  induction h with
  | init => intro x hx; simp [initRegistry] at hx
  | step hr hs ih =>
    obtain ⟨hstep, hfresh⟩ := hs
    cases hstep with
    | post id p =>
      intro x hx ht tm htm
      obtain ⟨hfr1, hfr2⟩ := hfresh id p rfl
      rw [showToast_fst_toasts] at hx
      rw [showToast_fst_timers] at htm
      rcases List.mem_cons.1 hx with hx | hx
      · subst hx
        rw [ToastPayload.toItem_timeout] at ht
        rw [if_pos ht] at htm
        rw [ToastPayload.toItem_id]
        intro hEq
        exact hfr2 (hEq ▸ List.mem_map_of_mem TTLTimer.toastId htm)
      · by_cases hpt : p.timeout = some none
        · rw [if_pos hpt] at htm
          exact ih x hx ht tm htm
        · rw [if_neg hpt] at htm
          rcases List.mem_cons.1 htm with htm | htm
          · subst htm
            intro hEq
            apply hfr1
            rw [show id = x.id from hEq]
            exact List.mem_map_of_mem ToastItem.id hx
          · exact ih x hx ht tm htm
    | dismiss id =>
      intro x hx ht tm htm
      simp only [hideToast, List.mem_filter] at hx htm
      exact ih x hx.1 ht tm htm
    | fire tm0 hmem hdue =>
      intro x hx ht tm htm
      simp only [fireTimer, List.mem_filter] at hx htm
      exact ih x hx.1 ht tm (List.mem_of_mem_erase htm)
    | advance k =>
      intro x hx ht tm htm
      exact ih x hx ht tm htm

/-- One step of persistence: along a fresh-id trace, a `timeout: null`
toast survives every registry event other than a dismissal of its own
id. -/
theorem regF_null_ttl_persists (d : Nat) (s : RegistryState)
    (h : RegReachableF d s) (x : ToastItem) (hx : x ∈ s.toasts)
    (ht : x.timeout = some none) (a : RegAction) (s' : RegistryState)
    (hstep : RegStep d s a s') (hna : a ≠ RegAction.dismiss x.id) :
    x ∈ s'.toasts := by
  cases hstep with
  | post id p =>
    rw [showToast_fst_toasts]
    exact List.mem_cons_of_mem _ hx
  | dismiss id =>
    simp only [hideToast, List.mem_filter]
    refine ⟨hx, ?_⟩
    simp only [bne_iff_ne, ne_eq, decide_eq_true_eq]
    intro hEq
    exact hna (by rw [hEq])
  | fire tm hmem hdue =>
    simp only [fireTimer, List.mem_filter]
    refine ⟨hx, ?_⟩
    simp only [bne_iff_ne, ne_eq, decide_eq_true_eq]
    intro hEq
    exact regF_null_ttl_no_timer d s h x hx ht tm hmem hEq.symm
  | advance k => exact hx

/-- A sample payload with an explicit `timeout: null`. -/
def nullToastPayload : ToastPayload :=
  { type := none, title := none, message := "m", timeout := some none }

/-- A sample payload whose `timeout` field is omitted. -/
def omitToastPayload : ToastPayload :=
  { type := some ToastType.success, title := none,
    message := "Tâche ajoutée", timeout := none }

/-- C5.  Posting with `timeout: null` schedules no timer, and along
any fresh-id trace such a toast has no timer targeting its id and
survives every event except an explicit dismissal of its id. -/
theorem nullTtl_never_auto_dismissed (d : Nat) :
    (∀ id p s, p.timeout = some none →
      (showToast d id p s).1.timers = s.timers) ∧
    (∀ s, RegReachableF d s → ∀ x ∈ s.toasts, x.timeout = some none →
      (∀ tm ∈ s.timers, tm.toastId ≠ x.id) ∧
      (∀ a s', RegStep d s a s' → a ≠ RegAction.dismiss x.id →
        x ∈ s'.toasts)) := by
  constructor
  · intro id p s hp
    rw [showToast_fst_timers, if_pos hp]
  · intro s hs x hx ht
    exact ⟨regF_null_ttl_no_timer d s hs x hx ht,
      fun a s' hstep hna =>
        regF_null_ttl_persists d s hs x hx ht a s' hstep hna⟩

/-- Witness for C5: a concrete `timeout: null` toast gets no timer and
survives a clock advance. -/
theorem nullTtl_never_auto_dismissed_witness :
    (showToast 4000 "a" nullToastPayload initRegistry).1.timers
      = initRegistry.timers ∧
    nullToastPayload.toItem "a" ∈
      (advanceClock 5000
        (showToast 4000 "a" nullToastPayload initRegistry).1).toasts := by
  have h := nullTtl_never_auto_dismissed 4000
  have hreach : RegReachableF 4000
      (showToast 4000 "a" nullToastPayload initRegistry).1 :=
    RegReachableF.step RegReachableF.init
      ⟨RegStep.post initRegistry "a" nullToastPayload,
       fun id p hEq => by cases hEq; decide⟩
  refine ⟨h.1 "a" nullToastPayload initRegistry rfl, ?_⟩
  refine (h.2 _ hreach (nullToastPayload.toItem "a") (by decide) rfl).2
    (RegAction.advance 5000) _
    (RegStep.advance _ 5000) (by decide)

/-- C8 amended.  Along every trace in which each generated id was
fresh at its post, the registry never holds two toasts with the same
id. -/
theorem registry_ids_nodup_of_fresh (d : Nat) (s : RegistryState)
    (h : RegReachableF d s) : (s.toasts.map ToastItem.id).Nodup := by
  induction h with
  | init => simp [initRegistry]
  | step hr hs ih =>
    obtain ⟨hstep, hfresh⟩ := hs
    cases hstep with
    | post id p =>
      rw [showToast_fst_toasts]
      simp only [List.map_cons, ToastPayload.toItem_id]
      exact List.nodup_cons.2 ⟨(hfresh id p rfl).1, ih⟩
    | dismiss id =>
      exact List.Nodup.sublist ((List.filter_sublist _).map _) ih
    | fire tm hmem hdue =>
      exact List.Nodup.sublist ((List.filter_sublist _).map _) ih
    | advance k => exact ih

/-- Witness for the amended C8: two fresh posts leave distinct ids. -/
theorem registry_ids_nodup_of_fresh_witness :
    (((showToast 4000 "b" omitToastPayload
        (showToast 4000 "a" omitToastPayload initRegistry).1).1).toasts.map
          ToastItem.id).Nodup :=
  registry_ids_nodup_of_fresh 4000 _
    (RegReachableF.step
      (RegReachableF.step RegReachableF.init
        ⟨RegStep.post initRegistry "a" omitToastPayload,
         fun id p hEq => by cases hEq; decide⟩)
      ⟨RegStep.post _ "b" omitToastPayload,
       fun id p hEq => by cases hEq; decide⟩)

/-- Counterexample to C8 as stated: `showToast` never checks the
generated id against the registry, so under an id-generation outcome
that repeats an id (possible for `Math.random().toString(36)`), a
reachable state holds two toasts with the same id. -/
theorem registry_duplicate_id_reachable :
    ∃ s, RegReachable 4000 s ∧ ¬ (s.toasts.map ToastItem.id).Nodup := by
  refine ⟨(showToast 4000 "aaaaaaa" nullToastPayload
      (showToast 4000 "aaaaaaa" nullToastPayload initRegistry).1).1, ?_, ?_⟩
  · exact RegReachable.step
      (RegReachable.step RegReachable.init
        (RegStep.post initRegistry "aaaaaaa" nullToastPayload))
      (RegStep.post _ "aaaaaaa" nullToastPayload)
  · decide

/-! ## Default timeout and timer cancellation -/

/-- C4 amended.  A post whose `timeout` field is omitted schedules
exactly one removal timer at the default delay of its provider variant
(4000 ms in the first variant, 3000 ms in the second), and that timer
can fire only once the clock has reached the scheduled deadline, so
the automatic removal happens no earlier than that delay. -/
theorem omitted_ttl_schedules_provider_default (d : Nat)
    (_hd : d = defaultTimeout_part000 ∨ d = defaultTimeout_part001)
    (id : String) (p : ToastPayload) (hp : p.timeout = none)
    (s : RegistryState) :
    (showToast d id p s).1.timers = ⟨id, s.now + d⟩ :: s.timers ∧
    ∀ s₂ s₃, RegStep d s₂ (RegAction.fire ⟨id, s.now + d⟩) s₃ →
      s.now + d ≤ s₂.now := by
  constructor
  · rw [showToast_fst_timers, hp]
    simp
  · intro s₂ s₃ hstep
    cases hstep with
    | fire h1 h2 h3 => exact h3

/-- Witness for the amended C4 in the first provider variant. -/
theorem omitted_ttl_schedules_provider_default_witness :
    (showToast 4000 "a" omitToastPayload initRegistry).1.timers
      = ⟨"a", initRegistry.now + 4000⟩ :: initRegistry.timers ∧
    ∀ s₂ s₃,
      RegStep 4000 s₂ (RegAction.fire ⟨"a", initRegistry.now + 4000⟩) s₃ →
      initRegistry.now + 4000 ≤ s₂.now :=
  omitted_ttl_schedules_provider_default 4000 (Or.inl rfl) "a"
    omitToastPayload rfl initRegistry

/-- Counterexample to C4 as stated: in the second provider variant the
omitted-timeout default is 3000 ms, so the automatic removal of a
toast posted there with no `timeout` is scheduled 3000 ms ahead, not
4000 ms. -/
theorem omitted_ttl_not_4000_in_part001 :
    (showToast defaultTimeout_part001 "a" omitToastPayload
        initRegistry).1.timers.map TTLTimer.fireAt = [3000] ∧
    ¬ (showToast defaultTimeout_part001 "a" omitToastPayload
        initRegistry).1.timers.map TTLTimer.fireAt = [4000] := by
  constructor <;> decide

/-- C7 amended.  `hideToast` removes the toast at once but does not
cancel its TTL timer: the scheduled set is left untouched.  The timer
later fires as a removal of every toast bearing the id, which is a
no-op on a registry holding no toast with that id — so a dismissal
before expiry leaves nothing for the timer to act on, while a toast
that reused the id would be removed by the stale fire. -/
theorem dismiss_keeps_timer_stale_fire_noop (id : String)
    (s s' : RegistryState) (tm : TTLTimer) :
    (hideToast id s).timers = s.timers ∧
    (∀ x ∈ (hideToast id s).toasts, x.id ≠ id) ∧
    (tm.toastId = id → (∀ x ∈ s'.toasts, x.id ≠ id) →
      (fireTimer tm s').toasts = s'.toasts) := by
  refine ⟨rfl, ?_, ?_⟩
  · intro x hx
    simp only [hideToast, List.mem_filter, bne_iff_ne, ne_eq,
      decide_eq_true_eq] at hx
    exact hx.2
  · intro hid hnone
    simp only [fireTimer]
    refine List.filter_eq_self.2 ?_
    intro x hx
    simp only [bne_iff_ne, ne_eq, decide_eq_true_eq, hid]
    exact hnone x hx

/-- Witness for the amended C7 at a concrete posted-then-dismissed
toast. -/
theorem dismiss_keeps_timer_stale_fire_noop_witness :
    (hideToast "a" (showToast 4000 "a" omitToastPayload
        initRegistry).1).timers
      = (showToast 4000 "a" omitToastPayload initRegistry).1.timers ∧
    (∀ x ∈ (hideToast "a" (showToast 4000 "a" omitToastPayload
        initRegistry).1).toasts, x.id ≠ "a") ∧
    (fireTimer ⟨"a", 4000⟩ (hideToast "a" (showToast 4000 "a"
        omitToastPayload initRegistry).1)).toasts
      = (hideToast "a" (showToast 4000 "a" omitToastPayload
          initRegistry).1).toasts := by
  have h := dismiss_keeps_timer_stale_fire_noop "a"
    (showToast 4000 "a" omitToastPayload initRegistry).1
    (hideToast "a" (showToast 4000 "a" omitToastPayload initRegistry).1)
    ⟨"a", 4000⟩
  exact ⟨h.1, h.2.1, h.2.2 rfl (by decide)⟩

/-- Counterexample to C7 as stated: after posting a toast with the
default TTL and dismissing it before expiry, the removal timer for its
id is still in the scheduled set — `hideToast` cancelled nothing. -/
theorem dismiss_does_not_cancel_timer :
    (hideToast "a" (showToast 4000 "a" omitToastPayload
        initRegistry).1).toasts = [] ∧
    (hideToast "a" (showToast 4000 "a" omitToastPayload
        initRegistry).1).timers = [⟨"a", 4000⟩] ∧
    "a" ∈ ((hideToast "a" (showToast 4000 "a" omitToastPayload
        initRegistry).1).timers.map TTLTimer.toastId) := by
  refine ⟨by decide, by decide, by decide⟩

/-! ## Confirmation Broker -/

/-- Options accepted by `confirm`
(`{ title?, message, okLabel?, cancelLabel? }`). -/
structure ConfirmOpts where
  title : Option String
  message : String
  okLabel : Option String
  cancelLabel : Option String
deriving DecidableEq, Repr

/-- The `ConfirmPayload` stored in the `confirmModal` slot.  The
`resolve` closure of the source captures the resolver of the promise
returned by that `confirm` call; the embedding records which promise
it settles through `promiseId`. -/
structure ConfirmPayload where
  id : String
  title : Option String
  message : String
  okLabel : String
  cancelLabel : String
  promiseId : Nat
deriving DecidableEq, Repr

/-- State of the Confirmation Broker: the single `confirmModal` slot,
the settlement status of every promise handed out so far (`none` while
unsettled — a JavaScript promise settles at most once), and a counter
giving each `confirm` call a fresh promise. -/
structure BrokerState where
  confirmModal : Option ConfirmPayload
  promises : List (Nat × Option Bool)
  nextPromise : Nat
deriving DecidableEq, Repr

/-- The broker before any confirmation request. -/
def initBroker : BrokerState :=
  { confirmModal := none, promises := [], nextPromise := 0 }

/-- The `confirm` callback of `AlertsProvider`: it creates a new
promise, builds the payload (labels defaulted to "OK" and "Annuler")
and stores it in the slot with `setConfirmModal(...)`, unconditionally
replacing whatever was pending.  It returns the new promise. -/
def confirm (id : String) (opts : ConfirmOpts) (s : BrokerState) :
    BrokerState × Nat :=
  let pid := s.nextPromise
  ({ confirmModal := some
      { id := id, title := opts.title, message := opts.message,
        okLabel := opts.okLabel.getD "OK",
        cancelLabel := opts.cancelLabel.getD "Annuler",
        promiseId := pid },
     promises := (pid, none) :: s.promises,
     nextPromise := pid + 1 }, pid)

/-- Settling one promise entry with value `v`: an unsettled entry of
the promise flips to `some v`; an already-settled entry is unchanged
(JavaScript `resolve` on a settled promise is a no-op). -/
def settleEntry (pid : Nat) (v : Bool) (e : Nat × Option Bool) :
    Nat × Option Bool :=
  match e with
  | (k, none) => if k = pid then (k, some v) else (k, none)
  | (k, some w) => (k, some w)

/-- Settling a promise with value `v` across the settlement table. -/
def settlePromise (pid : Nat) (v : Bool)
    (ps : List (Nat × Option Bool)) : List (Nat × Option Bool) :=
  ps.map (settleEntry pid v)

/-- The `resolve` closure stored in a payload:
`(v) => { resolve(v); setConfirmModal(null); }` — it settles the
promise of its own `confirm` call and clears the slot. -/
def payloadResolve (p : ConfirmPayload) (v : Bool) (s : BrokerState) :
    BrokerState :=
  { s with promises := settlePromise p.promiseId v s.promises,
           confirmModal := none }

/-- A click on the rendered OK or Cancel button: the modal is only
rendered while `confirmModal` is non-null, and the button invokes the
resolver of the currently displayed payload with `true` or `false`. -/
def clickButton (v : Bool) (s : BrokerState) : BrokerState :=
  match s.confirmModal with
  | none => s
  | some p => payloadResolve p v s

/-- Looking a promise up after a settlement of the same promise. -/
theorem settlePromise_lookup (pid : Nat) (v : Bool)
    (ps : List (Nat × Option Bool)) :
    (settlePromise pid v ps).lookup pid
      = (ps.lookup pid).map (fun o => some (o.getD v)) := by
  induction ps with
  | nil => rfl
  | cons e ps ih =>
    obtain ⟨k, o⟩ := e
    have hmap : settlePromise pid v ((k, o) :: ps)
        = settleEntry pid v (k, o) :: settlePromise pid v ps := rfl
    by_cases hk : k = pid
    · subst hk
      cases o with
      | none =>
        have he : settleEntry k v (k, none) = (k, some v) := if_pos rfl
        rw [hmap, he]
        simp [List.lookup_cons]
      | some w =>
        have he : settleEntry k v (k, some w) = (k, some w) := rfl
        rw [hmap, he]
        simp [List.lookup_cons]
    · have hk2 : (pid == k) = false := beq_eq_false_iff_ne.2 (Ne.symm hk)
      cases o with
      | none =>
        have he : settleEntry pid v (k, none) = (k, none) := if_neg hk
        rw [hmap, he]
        simpa [List.lookup_cons, hk2] using ih
      | some w =>
        have he : settleEntry pid v (k, some w) = (k, some w) := rfl
        rw [hmap, he]
        simpa [List.lookup_cons, hk2] using ih

/-- Options used by the concrete confirmation scenarios. -/
def confirmOptsEx : ConfirmOpts :=
  { title := none, message := "Supprimer cette tâche ?",
    okLabel := none, cancelLabel := none }

/-- The payload produced by `confirm "c" confirmOptsEx` on the fresh
broker. -/
def confirmPayloadEx : ConfirmPayload :=
  { id := "c", title := none, message := "Supprimer cette tâche ?",
    okLabel := "OK", cancelLabel := "Annuler", promiseId := 0 }

/-- C2.  A confirm or cancel click on the pending request settles its
promise to exactly the clicked value, exactly once: the promise goes
from unsettled to settled, the pending slot is cleared on settlement,
and a further invocation of the same (now stale) resolver leaves the
settled result unchanged. -/
theorem confirmation_settles_exactly_once (s : BrokerState)
    (p : ConfirmPayload) (v w : Bool)
    (hm : s.confirmModal = some p)
    (hu : s.promises.lookup p.promiseId = some none) :
    (clickButton v s).promises.lookup p.promiseId = some (some v) ∧
    (clickButton v s).confirmModal = none ∧
    (payloadResolve p w (clickButton v s)).promises.lookup p.promiseId
      = some (some v) := by
  have hclick : clickButton v s = payloadResolve p v s := by
    unfold clickButton
    rw [hm]
  have h1 : (payloadResolve p v s).promises.lookup p.promiseId
      = some (some v) := by
    simp only [payloadResolve, settlePromise_lookup, hu, Option.map_some]
    rfl
  refine ⟨hclick ▸ h1, by rw [hclick]; rfl, ?_⟩
  rw [hclick]
  simp only [payloadResolve, settlePromise_lookup, hu, Option.map_some]
  rfl

/-- Witness for C2: the scenario of the spec, `confirm` then an OK
click then a stale cancel attempt. -/
theorem confirmation_settles_exactly_once_witness :
    (clickButton true (confirm "c" confirmOptsEx initBroker).1).promises.lookup
        confirmPayloadEx.promiseId = some (some true) ∧
    (clickButton true (confirm "c" confirmOptsEx initBroker).1).confirmModal
      = none ∧
    (payloadResolve confirmPayloadEx false
        (clickButton true (confirm "c" confirmOptsEx
          initBroker).1)).promises.lookup confirmPayloadEx.promiseId
      = some (some true) :=
  confirmation_settles_exactly_once (confirm "c" confirmOptsEx initBroker).1
    confirmPayloadEx true false (by decide) (by decide)

/-- C1, the recorded defect: a second `confirm` call while a request
is pending silently replaces the pending payload.  After the two
back-to-back calls the slot holds only the second request, the first
promise (id 0) is still unsettled, and a button click — the only
settlement path the broker state offers — settles the second promise
while leaving the first unsettled forever. -/
theorem confirm_overwrites_pending_request :
    (confirm "r2" confirmOptsEx
        (confirm "r1" confirmOptsEx initBroker).1).1.confirmModal
      = some { id := "r2", title := none,
               message := "Supprimer cette tâche ?", okLabel := "OK",
               cancelLabel := "Annuler", promiseId := 1 } ∧
    (confirm "r2" confirmOptsEx
        (confirm "r1" confirmOptsEx initBroker).1).1.promises.lookup 0
      = some none ∧
    ∀ v : Bool,
      (clickButton v (confirm "r2" confirmOptsEx
          (confirm "r1" confirmOptsEx initBroker).1).1).promises.lookup 0
        = some none := by
  refine ⟨by decide, by decide, ?_⟩
  intro v
  cases v <;> decide

/-- Counterexample to C5 as stated: nothing ever schedules a timer for
a `timeout: null` toast, yet under an id-generation outcome that gives
a later TTL-bearing toast the same id, that timer fire (not a
dismiss) removes the `timeout: null` toast from the registry. -/
theorem nullTtl_toast_removed_without_dismiss :
    nullToastPayload.toItem "aaaaaaa" ∈
      (showToast 4000 "aaaaaaa" omitToastPayload
        (showToast 4000 "aaaaaaa" nullToastPayload
          initRegistry).1).1.toasts ∧
    RegStep 4000
      (advanceClock 4000 (showToast 4000 "aaaaaaa" omitToastPayload
        (showToast 4000 "aaaaaaa" nullToastPayload initRegistry).1).1)
      (RegAction.fire ⟨"aaaaaaa", 4000⟩)
      (fireTimer ⟨"aaaaaaa", 4000⟩
        (advanceClock 4000 (showToast 4000 "aaaaaaa" omitToastPayload
          (showToast 4000 "aaaaaaa" nullToastPayload
            initRegistry).1).1)) ∧
    nullToastPayload.toItem "aaaaaaa" ∉
      (fireTimer ⟨"aaaaaaa", 4000⟩
        (advanceClock 4000 (showToast 4000 "aaaaaaa" omitToastPayload
          (showToast 4000 "aaaaaaa" nullToastPayload
            initRegistry).1).1)).toasts :=
  ⟨by decide, RegStep.fire _ _ (by decide) (by decide), by decide⟩
